import Mathlib

/-!
# Verification of the db-scraper extraction-and-audit pipeline

Shallow embedding of `src/db_scraper/scraper.py` and `src/db_scraper/tools.py`
(the `DiscografiaScraper` class and the `merge_reports` utility), together with
theorems settling the specification claims about them.

Conventions of the embedding:
* A pandas cell that may be NaN is an `Option String` (`none` = NaN).
* Python `str(x)` applied to such a cell is `pyStrCell` (`str(nan) = "nan"`).
* Network effects are parameters: the audio-URL lookup of `_parse_track_data`
  is an oracle `String → Option String` (`none` = any caught failure), page
  fetches are a function from URL to `FetchResult`, and the audio download of
  the download stage maps the URL to a `FetchOutcome` (success, error before
  the target file is opened, or error while streaming into the already
  created file).
* The file system seen by the download stage is the list of existing file
  paths, threaded through the per-row loop.
* Python exceptions that the code does not catch are modelled with `Except`.
-/

namespace DbScraper

/-! ## Python string primitives -/

/-- `str(cell)` for a pandas cell: Python renders NaN as the string "nan". -/
def pyStrCell : Option String → String
  | none => "nan"
  | some s => s

/-- `pd.notna` applied to a value that is already a Python `str`:
always `True`, whatever the string is (this mirrors the dead check in
`_download_and_audit_dataframe`, which calls `pd.notna(autores)` only after
`autores = str(row["autor"])`). -/
def pdNotnaStr (_ : String) : Bool := true

/-- `pd.notna` on a raw cell. -/
def pdNotnaCell : Option String → Bool
  | none => false
  | some _ => true

/-- The whitespace class of Python's regex `\s` and of `str.strip()`,
restricted to ASCII (after the ASCII-encode step of the slug pipeline only
ASCII characters remain, so this is exact there). -/
def isPySpace (c : Char) : Bool :=
  c == ' ' || c == '\t' || c == '\n' || c == '\r' || c == '\x0b' || c == '\x0c'

/-- Drop the longest run of characters satisfying `p` from the end. -/
def dropEndWhile (p : Char → Bool) (l : List Char) : List Char :=
  (l.reverse.dropWhile p).reverse

/-- Python `str.strip()` with no argument: remove surrounding whitespace. -/
def pyStrip (s : String) : String :=
  ⟨dropEndWhile isPySpace (s.data.dropWhile isPySpace)⟩

/-- Does `sep` occur as an initial segment of `l`?  If so, return what
follows that occurrence. -/
def sepAt? : List Char → List Char → Option (List Char)
  | [], l => some l
  | _ :: _, [] => none
  | s :: ss, c :: cs => if c == s then sepAt? ss cs else none

/-- The characters before the first occurrence of `sep` (the whole list if
`sep` never occurs). -/
def takeUntilSep (sep : List Char) : List Char → List Char
  | [] => []
  | c :: cs =>
    match sepAt? sep (c :: cs) with
    | some _ => []
    | none => c :: takeUntilSep sep cs

/-- Python `s.split(sep)[0]` for a non-empty separator: the code only ever
uses the first entry of the split (`autores.split(" / ")[0]`), which is the
text before the first occurrence of the separator. -/
def pySplitFirst (sep : String) (s : String) : String :=
  ⟨takeUntilSep sep.data s.data⟩

/-! Unicode NFKD decomposition (`unicodedata.normalize("NFKD", ...)`)
restricted to the Latin letters the scraped site uses; every other character
decomposes to itself.  The combining marks are then discarded by the
ASCII-encode-with-ignore step, exactly as in CPython. -/

def combAcute : Char := Char.ofNat 769
def combGrave : Char := Char.ofNat 768
def combCirc : Char := Char.ofNat 770
def combTilde : Char := Char.ofNat 771
def combDiaer : Char := Char.ofNat 776
def combCedilla : Char := Char.ofNat 807

def nfkdChar : Char → List Char
  | 'á' => ['a', combAcute] | 'Á' => ['A', combAcute]
  | 'à' => ['a', combGrave] | 'À' => ['A', combGrave]
  | 'â' => ['a', combCirc] | 'Â' => ['A', combCirc]
  | 'ã' => ['a', combTilde] | 'Ã' => ['A', combTilde]
  | 'é' => ['e', combAcute] | 'É' => ['E', combAcute]
  | 'ê' => ['e', combCirc] | 'Ê' => ['E', combCirc]
  | 'í' => ['i', combAcute] | 'Í' => ['I', combAcute]
  | 'ó' => ['o', combAcute] | 'Ó' => ['O', combAcute]
  | 'ô' => ['o', combCirc] | 'Ô' => ['O', combCirc]
  | 'õ' => ['o', combTilde] | 'Õ' => ['O', combTilde]
  | 'ú' => ['u', combAcute] | 'Ú' => ['U', combAcute]
  | 'ü' => ['u', combDiaer] | 'Ü' => ['U', combDiaer]
  | 'ç' => ['c', combCedilla] | 'Ç' => ['C', combCedilla]
  | c => [c]

/-- `unicodedata.normalize("NFKD", s).encode("ASCII", "ignore").decode("utf-8")`:
decompose, then drop every non-ASCII code point. -/
def stripAccents (s : String) : String :=
  ⟨(s.data.flatMap nfkdChar).filter (fun c => c.toNat < 128)⟩

/-- Python `str.lower()` on the accented Latin range and ASCII. -/
def pyLowerChar (c : Char) : Char :=
  match c with
  | 'Á' => 'á' | 'À' => 'à' | 'Â' => 'â' | 'Ã' => 'ã'
  | 'É' => 'é' | 'Ê' => 'ê' | 'Í' => 'í'
  | 'Ó' => 'ó' | 'Ô' => 'ô' | 'Õ' => 'õ'
  | 'Ú' => 'ú' | 'Ü' => 'ü' | 'Ç' => 'ç'
  | _ => c.toLower

/-- Python `str.upper()` on the accented Latin range and ASCII. -/
def pyUpperChar (c : Char) : Char :=
  match c with
  | 'á' => 'Á' | 'à' => 'À' | 'â' => 'Â' | 'ã' => 'Ã'
  | 'é' => 'É' | 'ê' => 'Ê' | 'í' => 'Í'
  | 'ó' => 'Ó' | 'ô' => 'Ô' | 'õ' => 'Õ'
  | 'ú' => 'Ú' | 'ü' => 'Ü' | 'ç' => 'Ç'
  | _ => c.toUpper

/-- A cased character, for the word boundaries of Python `str.title()`. -/
def pyIsCased (c : Char) : Bool :=
  c.isAlpha ||
    c ∈ ['á', 'à', 'â', 'ã', 'é', 'ê', 'í', 'ó', 'ô', 'õ', 'ú', 'ü', 'ç',
         'Á', 'À', 'Â', 'Ã', 'É', 'Ê', 'Í', 'Ó', 'Ô', 'Õ', 'Ú', 'Ü', 'Ç']

/-- Python `str.title()`: the first cased character of each maximal cased run
is upper-cased, the rest of the run lower-cased. -/
def pyTitleAux : Bool → List Char → List Char
  | _, [] => []
  | prevCased, c :: cs =>
    if pyIsCased c then
      (if prevCased then pyLowerChar c else pyUpperChar c) :: pyTitleAux true cs
    else
      c :: pyTitleAux false cs

def pyTitle (s : String) : String := ⟨pyTitleAux false s.data⟩

/-! ## The slug pipeline of `_download_and_audit_dataframe` (lines 204-211) -/

/-- The character class kept by `re.sub(r"[^a-z0-9\s-]", "", ...)`. -/
def keepSlugChar (c : Char) : Bool :=
  ('a' ≤ c && c ≤ 'z') || ('0' ≤ c && c ≤ '9') || isPySpace c || c == '-'

/-- `re.sub(r"[^a-z0-9\s-]", "", titulo_sem_acentos.lower())`. -/
def tituloLimpo (s : String) : List Char :=
  ((stripAccents s).data.map Char.toLower).filter keepSlugChar

/-- The run class of `re.sub(r"[\s-]+", "-", ...)`. -/
def isSpaceOrHyphen (c : Char) : Bool := isPySpace c || c == '-'

/-- `re.sub(r"[\s-]+", "-", ...)`: each maximal run of whitespace/hyphens
becomes a single hyphen.  The flag records whether we are inside such a run. -/
def collapseAux : Bool → List Char → List Char
  | _, [] => []
  | inRun, c :: cs =>
    if isSpaceOrHyphen c then
      if inRun then collapseAux true cs else '-' :: collapseAux true cs
    else
      c :: collapseAux false cs

/-- Python `str.strip("-")`: drop leading and trailing hyphens. -/
def stripHyphens (l : List Char) : List Char :=
  ((l.dropWhile (fun c => c == '-')).reverse.dropWhile (fun c => c == '-')).reverse

/-- `slug_titulo`, the full slug of a title as computed by the code:
NFKD-decompose, drop non-ASCII, lower-case, keep `[a-z0-9\s-]`, collapse
whitespace/hyphen runs to single hyphens, strip boundary hyphens. -/
def slugTitulo (titulo : String) : String :=
  ⟨stripHyphens (collapseAux false (tituloLimpo titulo))⟩

/-- `nome_arquivo_final = f"slug _ str(data_id) .mp3"` (line 211). -/
def nomeArquivoFinal (titulo data_id : String) : String :=
  slugTitulo titulo ++ "_" ++ data_id ++ ".mp3"

/-! ## Folder computation of `_download_and_audit_dataframe` (lines 192-197) -/

/-- The path-illegal characters removed by `re.sub(r'[\\/*?:"<>|]', "", ...)`. -/
def illegalPathChar (c : Char) : Bool :=
  c == '\\' || c == '/' || c == '*' || c == '?' || c == ':' ||
    c == '"' || c == '<' || c == '>' || c == '|'

def sanitizeFolderName (s : String) : String :=
  ⟨s.data.filter (fun c => !(illegalPathChar c))⟩

/-- `nome_pasta`: starts as the sentinel; `autores = str(row["autor"])` is
computed FIRST, so a NaN cell has already become the string "nan" when the
`pd.notna(autores) and autores` test runs; the first " / "-separated entry is
stripped and sanitized. -/
def nomePasta (autorCell : Option String) : String :=
  let autores := pyStrCell autorCell
  if pdNotnaStr autores && autores != "" then
    sanitizeFolderName (pyStrip (pySplitFirst " / " autores))
  else
    "Autor Desconhecido"

/-! ## Data model

A row of the working DataFrame.  Every column is an `Option String`: `none`
is a missing cell (NaN).  The parser fills the first ten fields; the three
audit columns stay `none` until the download stage sets them (the stage first
creates any missing audit column filled with NaN, which in this model is
already the state of affairs). -/

structure Row where
  data_id : Option String := none
  titulo : Option String := none
  autor : Option String := none
  interprete : Option String := none
  disco : Option String := none
  ano_lancamento_disco : Option String := none
  data_gravacao : Option String := none
  data_lancamento : Option String := none
  fonte_url : Option String := none
  audio_url : Option String := none
  pasta : Option String := none
  nome_arquivo : Option String := none
  data_download : Option String := none
  deriving Repr, DecidableEq, Inhabited

/-! ## `_parse_track_data` (scraper.py lines 93-157)

The BeautifulSoup queries the method performs on one track fragment are
modelled by their results, recorded in `TrackTag`:

* `playBttn`: `select_one(".play-bttn")` — outer `none` when the element is
  absent; the inner option is its `data-id` attribute (`tag.get` returns
  `None` when the attribute is missing).
* `trackNameA`: `select_one(".track-name a")` — the element's text and its
  `href` attribute when present.
* `trackAuthorTexts` / `trackPerformerTexts`: texts of
  `select(".track-author a")` / `select(".track-performer a")` in order.
* `trackDurationA`, `trackYear`: texts of `select_one(".track-duration a")`
  and `select_one(".track-year")`.
* `gravacaoSibling` / `lancamentoSibling`:
  `find("div", class_="property-label", string=...)` — outer `none` when no
  such label exists; the inner option is the text of
  `label.find_next_sibling("div")`, `none` when the label has no following
  `div` sibling (in which case `find_next_sibling` returns Python `None`). -/

structure TrackTag where
  playBttn : Option (Option String) := none
  trackNameA : Option (String × Option String) := none
  trackAuthorTexts : List String := []
  trackPerformerTexts : List String := []
  trackDurationA : Option String := none
  trackYear : Option String := none
  gravacaoSibling : Option (Option String) := none
  lancamentoSibling : Option (Option String) := none
  deriving Repr, DecidableEq

/-- The uncaught Python exceptions our embedding can surface. -/
inductive PyError where
  | attributeError
  deriving Repr, DecidableEq

/-- `label.find_next_sibling("div").text.strip() if label else ""`:
when the label exists but has no following `div` sibling, the code evaluates
`None.text` and raises `AttributeError` (nothing catches it). -/
def siblingTextOrEmpty : Option (Option String) → Except PyError String
  | none => .ok ""
  | some none => .error .attributeError
  | some (some txt) => .ok (pyStrip txt)

/-- Python truthiness of `data_id` (`if data_id:`): `None` and `""` are
falsy. -/
def truthyOptStr : Option String → Bool
  | none => false
  | some s => s != ""

/-- `_parse_track_data`.  `audioOracle` stands for the secondary content-API
request: `none` covers every failure the code catches there
(`requests.RequestException`, `KeyError`, `IndexError`), in which case
`audio_url` stays `""`. -/
def parseTrackData (audioOracle : String → Option String) (t : TrackTag) :
    Except PyError Row := do
  let data_id : Option String := t.playBttn.bind id
  let titulo : String :=
    match t.trackNameA with
    | some (txt, _) => pyTitle (pyStrip txt)
    | none => "Título Desconhecido"
  let autor := String.intercalate " / " (t.trackAuthorTexts.map pyStrip)
  let interprete := String.intercalate " / " (t.trackPerformerTexts.map pyStrip)
  let disco :=
    match t.trackDurationA with
    | some txt => pyStrip txt
    | none => ""
  let anoDisco :=
    match t.trackYear with
    | some txt => pyStrip txt
    | none => ""
  let dataGravacao ← siblingTextOrEmpty t.gravacaoSibling
  let dataLancamento ← siblingTextOrEmpty t.lancamentoSibling
  let fonteUrl :=
    match t.trackNameA with
    | some (_, href) => href.getD ""
    | none => ""
  let audioUrl :=
    if truthyOptStr data_id then (audioOracle (data_id.getD "")).getD "" else ""
  return { data_id := data_id
           titulo := some titulo
           autor := some autor
           interprete := some interprete
           disco := some disco
           ano_lancamento_disco := some anoDisco
           data_gravacao := some dataGravacao
           data_lancamento := some dataLancamento
           fonte_url := some fonteUrl
           audio_url := some audioUrl }

/-! ## `_download_and_audit_dataframe` (scraper.py lines 159-242) -/

/-- The filter `df["audio_url"].notna() & (df["audio_url"] != "")`. -/
def hasAudio (r : Row) : Bool :=
  pdNotnaCell r.audio_url && pyStrCell r.audio_url != ""

/-- The on-disk path of a row's target file, relative to the output
directory: author folder, then slugged filename. -/
def targetPath (r : Row) : String :=
  nomePasta r.autor ++ "/" ++ nomeArquivoFinal (pyStrCell r.titulo) (pyStrCell r.data_id)

/-- Outcome of the one streamed download attempt for an audio URL
(lines 219-234).  `requests.get` and `raise_for_status` can raise before
`open(filepath, "wb")` runs, so nothing is written; once the `with open`
block has created the file, a `requests.RequestException` from
`iter_content` mid-stream is still caught by the same `except`, but the
partially written target file remains on disk. -/
inductive FetchOutcome where
  | ok
  | errBefore
  | errDuring
  deriving Repr, DecidableEq

/-- One iteration of the download loop for a row with a non-empty audio URL.
`fs` is the set of files on disk, `fetch url` the outcome of the streamed
GET of `url`.  Mirrors lines 190-240: `pasta` and `nome_arquivo` are always
written; `data_download` is written only when the file already existed or
the download completed, and is otherwise left at whatever value the row
carried.  A download error before the file is opened leaves the disk
unchanged; an error during streaming leaves the (partial) target file on
disk even though `download_status` is `False`. -/
def processRow (fetch : String → FetchOutcome) (today : String)
    (fs : List String) (r : Row) : Row × List String :=
  let pasta := nomePasta r.autor
  let arquivo := nomeArquivoFinal (pyStrCell r.titulo) (pyStrCell r.data_id)
  let path := pasta ++ "/" ++ arquivo
  if path ∈ fs then
    ({ r with pasta := some pasta, nome_arquivo := some arquivo,
              data_download := some today }, fs)
  else
    match fetch (pyStrCell r.audio_url) with
    | .ok =>
      ({ r with pasta := some pasta, nome_arquivo := some arquivo,
                data_download := some today }, path :: fs)
    | .errBefore =>
      ({ r with pasta := some pasta, nome_arquivo := some arquivo }, fs)
    | .errDuring =>
      ({ r with pasta := some pasta, nome_arquivo := some arquivo }, path :: fs)

/-- `_download_and_audit_dataframe`: rows failing the audio filter are left
untouched; the others go through `processRow` in order, threading the file
system.  Returns the updated rows and the final file system. -/
def downloadAndAudit (fetch : String → FetchOutcome) (today : String) :
    List String → List Row → List Row × List String
  | fs, [] => ([], fs)
  | fs, r :: rs =>
    if hasAudio r then
      let pr := processRow fetch today fs r
      let rest := downloadAndAudit fetch today pr.2 rs
      (pr.1 :: rest.1, rest.2)
    else
      let rest := downloadAndAudit fetch today fs rs
      (r :: rest.1, rest.2)

/-! ## `extract_playlist_data` (lines 244-295) and `extract_author_data`
(lines 297-373)

A page fetch either yields the parsed `div.track` fragments of the response
plus the optional next-page link (`span.pagination-item a[aria-label="Next"]`,
an href-carrying anchor, absent or without href modelled as `none`), or
raises `requests.RequestException` — including `raise_for_status` on a
non-2xx status. -/

inductive FetchResult where
  | ok (tracks : List TrackTag) (next : Option String)
  | err
  deriving Repr

/-- `extract_playlist_data`, applied to the outcome of its single tracklist
request.  A `RequestException` is caught and yields `[]`; otherwise every
fragment is parsed in order (an uncaught parser exception would propagate,
hence the `Except`). -/
def extractPlaylistData (audioOracle : String → Option String)
    (resp : FetchResult) : Except PyError (List Row) :=
  match resp with
  | .err => .ok []
  | .ok tracks _ => tracks.mapM (parseTrackData audioOracle)

/-- The `while next_page_url` loop of `extract_author_data`.  `site` maps a
page URL to its fetch outcome; the second component of the result counts the
page requests performed.  The loop in the code has no bound, so the embedding
carries fuel; with fuel at least the number of pages actually visited the
result does not depend on it.  On a caught `RequestException` the loop
breaks, keeping what was aggregated; a page with zero fragments breaks
likewise. -/
def extractAuthorLoop (audioOracle : String → Option String)
    (site : String → FetchResult) :
    Nat → String → Except PyError (List Row × Nat)
  | 0, _ => .ok ([], 0)
  | fuel + 1, url =>
    match site url with
    | .err => .ok ([], 1)
    | .ok tracks next =>
      if tracks.isEmpty then .ok ([], 1)
      else
        match tracks.mapM (parseTrackData audioOracle) with
        | .error e => .error e
        | .ok rows =>
          match next with
          | none => .ok (rows, 1)
          | some nextUrl =>
            match extractAuthorLoop audioOracle site fuel nextUrl with
            | .error e => .error e
            | .ok (rest, n) => .ok (rows ++ rest, n + 1)

/-- `extract_author_data`: start the pagination loop at the author-listing
URL (built from the URL-encoded author name; we take the start URL as
given). -/
def extractAuthorData (audioOracle : String → Option String)
    (site : String → FetchResult) (fuel : Nat) (startUrl : String) :
    Except PyError (List Row × Nat) :=
  extractAuthorLoop audioOracle site fuel startUrl

/-! ## Column order of the persisted reports

Only the column component of each DataFrame matters for claim C2; a
DataFrame's columns are the list of its column labels in order. -/

/-- `config.OUTPUT_COLUMNS` (config.py): the keys of `COLUMN_DTYPES` in
declaration order. -/
def OUTPUT_COLUMNS : List String :=
  ["data_id", "titulo", "interprete", "autor", "disco",
   "ano_lancamento_disco", "data_gravacao", "data_lancamento",
   "fonte_url", "audio_url", "pasta", "nome_arquivo", "data_download"]

/-- Columns of `pd.DataFrame(dados_musicas)`: the insertion order of the dict
returned by `_parse_track_data` (lines 146-157) — note `autor` precedes
`interprete` here, unlike in `OUTPUT_COLUMNS`. -/
def parsedDictColumns : List String :=
  ["data_id", "titulo", "autor", "interprete", "disco",
   "ano_lancamento_disco", "data_gravacao", "data_lancamento",
   "fonte_url", "audio_url"]

/-- Lines 183-185: `for col in [...]: if col not in df.columns: df[col] = ...`
appends each missing audit column at the end, in that order. -/
def addAuditColumns (cols : List String) : List String :=
  cols ++ (["pasta", "nome_arquivo", "data_download"].filter (fun c => !(cols.contains c)))

/-- `df.reindex(columns=target)`: the result's columns are exactly `target`
(missing ones created empty, extras dropped), whatever `df` had. -/
def reindexColumns (_cols : List String) (target : List String) : List String :=
  target

/-- Columns of the CSV written by `save_playlist_to_csv` (lines 403-409) and
`save_author_to_csv` (lines 444-453): DataFrame from parsed dicts, then
reindex to `OUTPUT_COLUMNS`. -/
def metadataReportColumns : List String :=
  reindexColumns parsedDictColumns OUTPUT_COLUMNS

/-- Columns of the complete report of `download_from_playlist` (line 552) and
`download_from_author` (line 613): parsed dicts, audit columns added by the
download stage, then reindex. -/
def completeReportColumns : List String :=
  reindexColumns (addAuditColumns parsedDictColumns) OUTPUT_COLUMNS

/-- Columns of the audit CSV written by `download_from_csv` (lines 486-501):
the input CSV's columns pass through `_download_and_audit_dataframe`, which
appends missing audit columns — there is NO reindex before `to_csv`. -/
def downloadFromCsvColumns (inputCols : List String) : List String :=
  addAuditColumns inputCols

/-! ## `merge_reports` (tools.py lines 12-76)

Each input file is `none` when unreadable (`FileNotFoundError` or any other
read error, both caught and skipped) and `some rows` when read.  The string
result of the Python function is modelled by `Option (List Row)`: `none` for
the empty-string failure returns, `some rows` for a written report (the
timestamped path name itself carries no information we verify). -/

/-- `drop_duplicates(subset=["data_id"], keep="first")`.  pandas hashes NaN
keys as equal to one another, so the key is the raw `Option String` cell and
two NaN ids collide. -/
def dropDuplicatesByDataId (seen : List (Option String)) :
    List Row → List Row
  | [] => []
  | r :: rs =>
    if r.data_id ∈ seen then dropDuplicatesByDataId seen rs
    else r :: dropDuplicatesByDataId (r.data_id :: seen) rs

/-- `merge_reports`. -/
def mergeReports (files : List (Option (List Row))) : Option (List Row) :=
  if files.isEmpty then none
  else
    let allDfs := files.filterMap id
    if allDfs.isEmpty then none
    else some (dropDuplicatesByDataId [] allDfs.flatten)

/-! # Concrete inputs used by the claim theorems -/

/-- An audio oracle for concrete runs: every content-API lookup fails with a
caught exception, leaving `audio_url` empty. -/
def oracleNone : String → Option String := fun _ => none

/-- A track fragment whose `gravacao` property label is present but has no
following `div` sibling; all other sub-elements are well-formed. -/
def gravacaoNoSiblingTag : TrackTag :=
  { playBttn := some (some "77")
    trackNameA := some ("Juramento", some "/fonograma/77")
    trackAuthorTexts := ["Alguem"]
    trackPerformerTexts := ["Cantora"]
    trackDurationA := some "Odeon 1"
    trackYear := some "1941"
    gravacaoSibling := some none
    lancamentoSibling := none }

/-- The 13 configured columns as a user-edited CSV could order them:
`titulo` and `data_id` swapped, everything else in place. -/
def editedCsvColumns : List String :=
  ["titulo", "data_id", "interprete", "autor", "disco",
   "ano_lancamento_disco", "data_gravacao", "data_lancamento",
   "fonte_url", "audio_url", "pasta", "nome_arquivo", "data_download"]

/-- A CSV row whose `autor` cell is empty — read back as NaN — but which has
an audio URL, so the download stage processes it. -/
def nanAuthorRow : Row :=
  { data_id := some "9", titulo := some "Samba", autor := none,
    audio_url := some "http://x/9.mp3" }

/-- First of two records resolving to the same target file (same author,
title and id) but carrying different audio URLs; this one's URL fails. -/
def dupPathRow1 : Row :=
  { data_id := some "62582", titulo := some "É Mato",
    autor := some "Wilson Batista / Alvaiade",
    audio_url := some "http://cdn/a.mp3" }

/-- Second of the pair: same target file, working URL. -/
def dupPathRow2 : Row :=
  { data_id := some "62582", titulo := some "É Mato",
    autor := some "Wilson Batista / Alvaiade",
    audio_url := some "http://cdn/b.mp3" }

/-- The network during the duplicate-path run: only the second URL works,
the first request fails before anything is written. -/
def dupFetch : String → FetchOutcome := fun u =>
  if u == "http://cdn/b.mp3" then .ok else .errBefore

/-- A record with an empty `audio_url`: filtered out by the download stage. -/
def noAudioRow : Row :=
  { data_id := some "5", titulo := some "Silencio", autor := some "X",
    audio_url := some "" }

/-! Concrete pages for the pagination runs: three simple track fragments and
their parsed records. -/

def pageTagA : TrackTag := { trackNameA := some ("Alpha", some "ua") }
def pageTagB : TrackTag := { trackNameA := some ("Beta", some "ub") }
def pageTagC : TrackTag := { trackNameA := some ("Gama", some "uc") }

def rowAlpha : Row :=
  { data_id := none, titulo := some "Alpha", autor := some "",
    interprete := some "", disco := some "", ano_lancamento_disco := some "",
    data_gravacao := some "", data_lancamento := some "",
    fonte_url := some "ua", audio_url := some "" }

def rowBeta : Row :=
  { data_id := none, titulo := some "Beta", autor := some "",
    interprete := some "", disco := some "", ano_lancamento_disco := some "",
    data_gravacao := some "", data_lancamento := some "",
    fonte_url := some "ub", audio_url := some "" }

def rowGama : Row :=
  { data_id := none, titulo := some "Gama", autor := some "",
    interprete := some "", disco := some "", ano_lancamento_disco := some "",
    data_gravacao := some "", data_lancamento := some "",
    fonte_url := some "uc", audio_url := some "" }

/-- A three-page author listing: page "p1" has two fragments and links to
"p2", page "p2" has one fragment and links to "p3", page "p3" has zero
fragments (natural end). -/
def threePageSite : String → FetchResult := fun u =>
  if u == "p1" then .ok [pageTagA, pageTagB] (some "p2")
  else if u == "p2" then .ok [pageTagC] (some "p3")
  else .ok [] none

/-- An author listing whose second page request fails. -/
def failPage2Site : String → FetchResult := fun u =>
  if u == "p1" then .ok [pageTagA, pageTagB] (some "p2")
  else .err

/-! Rows for the merge scenarios: two reports sharing one id, and rows whose
id cell is missing (NaN). -/

def mergeRowA : Row := { data_id := some "100", titulo := some "Primeira" }
def sharedRow1 : Row := { data_id := some "200", titulo := some "Compartilhada" }
def sharedRow2 : Row := { data_id := some "200", titulo := some "Outra Copia" }
def mergeRowB : Row := { data_id := some "300", titulo := some "Segunda" }
def nanIdRow1 : Row := { data_id := none, titulo := some "Sem Id Um" }
def nanIdRow2 : Row := { data_id := none, titulo := some "Sem Id Dois" }

/-! # Structural lemmas about the slug pipeline -/

/-- The alphabet the spec promises for slugs: lower-case letters, digits,
hyphens. -/
def isSlugChar (c : Char) : Bool :=
  ('a' ≤ c && c ≤ 'z') || ('0' ≤ c && c ≤ '9') || c == '-'

lemma keepSlug_not_space_hyphen {c : Char} (h1 : keepSlugChar c = true)
    (h2 : isSpaceOrHyphen c = false) : isSlugChar c = true := by
  have hs : isPySpace c = false := by
    cases hps : isPySpace c
    · rfl
    · exfalso; simp [isSpaceOrHyphen, hps] at h2
  have hh : (c == '-') = false := by
    cases hhy : c == '-'
    · rfl
    · exfalso; simp [isSpaceOrHyphen, hhy] at h2
  simp only [keepSlugChar, Bool.or_eq_true] at h1
  simp only [isSlugChar, Bool.or_eq_true]
  rcases h1 with ((h | h) | h) | h
  · exact Or.inl (Or.inl h)
  · exact Or.inl (Or.inr h)
  · rw [hs] at h; exact absurd h (by simp)
  · rw [hh] at h; exact absurd h (by simp)

lemma collapseAux_cons_space_true {a : Char} {as : List Char}
    (h : isSpaceOrHyphen a = true) :
    collapseAux true (a :: as) = collapseAux true as := by
  simp [collapseAux, h]

lemma collapseAux_cons_space_false {a : Char} {as : List Char}
    (h : isSpaceOrHyphen a = true) :
    collapseAux false (a :: as) = '-' :: collapseAux true as := by
  simp [collapseAux, h]

lemma collapseAux_cons_other {flag : Bool} {a : Char} {as : List Char}
    (h : isSpaceOrHyphen a = false) :
    collapseAux flag (a :: as) = a :: collapseAux false as := by
  simp [collapseAux, h]

lemma mem_collapseAux {c : Char} :
    ∀ (flag : Bool) (l : List Char), c ∈ collapseAux flag l →
      c = '-' ∨ (c ∈ l ∧ isSpaceOrHyphen c = false) := by
  intro flag l
  induction l generalizing flag with
  | nil => simp [collapseAux]
  | cons a as ih =>
    by_cases h : isSpaceOrHyphen a = true
    · cases flag with
      | true =>
        rw [collapseAux_cons_space_true h]
        intro hm
        rcases ih true hm with h' | ⟨h1, h2⟩
        · exact Or.inl h'
        · exact Or.inr ⟨List.mem_cons_of_mem _ h1, h2⟩
      | false =>
        rw [collapseAux_cons_space_false h]
        intro hm
        rcases List.mem_cons.mp hm with rfl | hm'
        · exact Or.inl rfl
        · rcases ih true hm' with h' | ⟨h1, h2⟩
          · exact Or.inl h'
          · exact Or.inr ⟨List.mem_cons_of_mem _ h1, h2⟩
    · rw [collapseAux_cons_other (by simpa using h)]
      intro hm
      rcases List.mem_cons.mp hm with rfl | hm'
      · exact Or.inr ⟨List.mem_cons_self _ _, by simpa using h⟩
      · rcases ih false hm' with h' | ⟨h1, h2⟩
        · exact Or.inl h'
        · exact Or.inr ⟨List.mem_cons_of_mem _ h1, h2⟩

lemma head?_collapseAux_true {a : Char} :
    ∀ l : List Char, (collapseAux true l).head? = some a →
      isSpaceOrHyphen a = false := by
  intro l
  induction l with
  | nil => simp [collapseAux]
  | cons c cs ih =>
    by_cases h : isSpaceOrHyphen c = true
    · rw [collapseAux_cons_space_true h]
      exact ih
    · rw [collapseAux_cons_other (by simpa using h)]
      simp only [List.head?_cons, Option.some.injEq]
      rintro rfl
      simpa using h

lemma chain'_collapseAux :
    ∀ (flag : Bool) (l : List Char),
      List.Chain' (fun a b => ¬(a = '-' ∧ b = '-')) (collapseAux flag l) := by
  intro flag l
  induction l generalizing flag with
  | nil => simp [collapseAux]
  | cons c cs ih =>
    by_cases h : isSpaceOrHyphen c = true
    · cases flag with
      | true => rw [collapseAux_cons_space_true h]; exact ih true
      | false =>
        rw [collapseAux_cons_space_false h, List.chain'_cons']
        refine ⟨?_, ih true⟩
        intro y hy
        have hns := head?_collapseAux_true _ hy
        rintro ⟨-, rfl⟩
        simp [isSpaceOrHyphen] at hns
    · rw [collapseAux_cons_other (by simpa using h), List.chain'_cons']
      refine ⟨?_, ih false⟩
      intro y hy
      rintro ⟨rfl, -⟩
      simp [isSpaceOrHyphen] at h

lemma stripHyphens_sublist (l : List Char) : (stripHyphens l).Sublist l := by
  unfold stripHyphens
  have h1 : ((l.dropWhile (fun c => c == '-')).reverse.dropWhile
      (fun c => c == '-')).reverse.Sublist
      (l.dropWhile (fun c => c == '-')).reverse.reverse :=
    (List.dropWhile_sublist _).reverse
  rw [List.reverse_reverse] at h1
  exact h1.trans (List.dropWhile_sublist _)

lemma head?_dropWhile {p : Char → Bool} {a : Char} :
    ∀ l : List Char, (l.dropWhile p).head? = some a → p a = false := by
  intro l
  induction l with
  | nil => simp
  | cons c cs ih =>
    by_cases h : p c = true
    · simpa [List.dropWhile_cons, h] using ih
    · simp only [List.dropWhile_cons, h, Bool.false_eq_true, if_false,
        List.head?_cons, Option.some.injEq]
      rintro rfl
      simpa using h

lemma chain'_dropWhile {R : Char → Char → Prop} (p : Char → Bool)
    {l : List Char} (h : List.Chain' R l) : List.Chain' R (l.dropWhile p) := by
  induction l with
  | nil => exact h
  | cons c cs ih =>
    by_cases hp : p c = true
    · rw [List.dropWhile_cons_of_pos hp]
      exact ih h.tail
    · rwa [List.dropWhile_cons_of_neg (by simpa using hp)]

lemma getLast?_stripHyphens {l : List Char} {a : Char}
    (h : (stripHyphens l).getLast? = some a) : a ≠ '-' := by
  unfold stripHyphens at h
  rw [List.getLast?_reverse] at h
  have := head?_dropWhile _ h
  simpa using this

lemma head?_stripHyphens {l : List Char} {a : Char}
    (h : (stripHyphens l).head? = some a) : a ≠ '-' := by
  unfold stripHyphens at h
  rw [List.head?_reverse] at h
  obtain ⟨t, ht⟩ :=
    List.dropWhile_suffix (l := (l.dropWhile (fun c => c == '-')).reverse)
      (fun c => c == '-')
  have h3 : (l.dropWhile (fun c => c == '-')).reverse.getLast? = some a := by
    rw [← ht, List.getLast?_append, h]
    rfl
  rw [List.getLast?_reverse] at h3
  have h4 := head?_dropWhile _ h3
  simpa using h4

lemma mem_slugTitulo {titulo : String} {c : Char}
    (h : c ∈ (slugTitulo titulo).data) : isSlugChar c = true := by
  have h1 : c ∈ collapseAux false (tituloLimpo titulo) :=
    (stripHyphens_sublist _).mem h
  rcases mem_collapseAux _ _ h1 with rfl | ⟨h2, h3⟩
  · simp [isSlugChar]
  · exact keepSlug_not_space_hyphen (List.mem_filter.mp h2).2 h3

lemma chain'_stripHyphens {l : List Char}
    (h : List.Chain' (fun a b : Char => ¬(a = '-' ∧ b = '-')) l) :
    List.Chain' (fun a b : Char => ¬(a = '-' ∧ b = '-')) (stripHyphens l) := by
  have hsymm : ∀ {m : List Char},
      List.Chain' (fun a b : Char => ¬(a = '-' ∧ b = '-')) m →
      List.Chain' (flip fun a b : Char => ¬(a = '-' ∧ b = '-')) m :=
    fun hm => hm.imp (fun a b hab hp => hab ⟨hp.2, hp.1⟩)
  unfold stripHyphens
  exact List.chain'_reverse.mpr (hsymm (chain'_dropWhile _
    (List.chain'_reverse.mpr (hsymm (chain'_dropWhile _ h)))))

/-! # Lemmas about the download-and-audit stage -/

lemma processRow_mem_fs {fetch : String → FetchOutcome} {today : String}
    {fs : List String} {r : Row} {x : String} (hx : x ∈ fs) :
    x ∈ (processRow fetch today fs r).2 := by
  unfold processRow
  by_cases h1 : (nomePasta r.autor ++ "/" ++
      nomeArquivoFinal (pyStrCell r.titulo) (pyStrCell r.data_id)) ∈ fs
  · simp [h1, hx]
  · cases h2 : fetch (pyStrCell r.audio_url) <;> simp [h1, h2, hx]

lemma downloadAndAudit_fs_mono {fetch : String → FetchOutcome} {today : String} :
    ∀ (rows : List Row) (fs : List String) (x : String), x ∈ fs →
      x ∈ (downloadAndAudit fetch today fs rows).2 := by
  intro rows
  induction rows with
  | nil => intro fs x hx; exact hx
  | cons r rs ih =>
    intro fs x hx
    by_cases ha : hasAudio r = true
    · simp only [downloadAndAudit, ha, if_true]
      exact ih _ _ (processRow_mem_fs hx)
    · simp only [downloadAndAudit]
      rw [if_neg ha]
      exact ih _ _ hx

lemma processRow_spec (fetch : String → FetchOutcome) (today : String)
    (fs : List String) (r : Row) :
    (processRow fetch today fs r).1.pasta = some (nomePasta r.autor) ∧
    (processRow fetch today fs r).1.nome_arquivo =
      some (nomeArquivoFinal (pyStrCell r.titulo) (pyStrCell r.data_id)) ∧
    ((targetPath r ∈ fs ∨ fetch (pyStrCell r.audio_url) = .ok) →
      (processRow fetch today fs r).1.data_download = some today ∧
        targetPath r ∈ (processRow fetch today fs r).2) ∧
    (targetPath r ∉ fs → fetch (pyStrCell r.audio_url) = .errBefore →
      (processRow fetch today fs r).1.data_download = r.data_download ∧
        (processRow fetch today fs r).2 = fs) ∧
    (targetPath r ∉ fs → fetch (pyStrCell r.audio_url) = .errDuring →
      (processRow fetch today fs r).1.data_download = r.data_download ∧
        (processRow fetch today fs r).2 = targetPath r :: fs) := by
  unfold processRow targetPath
  by_cases h1 : (nomePasta r.autor ++ "/" ++
      nomeArquivoFinal (pyStrCell r.titulo) (pyStrCell r.data_id)) ∈ fs
  · simp [h1]
  · cases h2 : fetch (pyStrCell r.audio_url) <;> simp [h1, h2]

lemma downloadAndAudit_sets_today (fetch : String → FetchOutcome) (today : String) :
    ∀ (rows : List Row) (fs : List String),
      List.Forall₂
        (fun r r' => r'.data_download ≠ r.data_download →
          r'.data_download = some today ∧
            targetPath r ∈ (downloadAndAudit fetch today fs rows).2)
        rows (downloadAndAudit fetch today fs rows).1 := by
  intro rows
  induction rows with
  | nil => intro fs; exact List.Forall₂.nil
  | cons r rs ih =>
    intro fs
    by_cases ha : hasAudio r = true
    · simp only [downloadAndAudit, ha, if_true]
      refine List.Forall₂.cons ?_ (ih (processRow fetch today fs r).2)
      intro hne
      by_cases hmem : targetPath r ∈ fs
      · obtain ⟨hd, hm⟩ := (processRow_spec fetch today fs r).2.2.1 (Or.inl hmem)
        exact ⟨hd, downloadAndAudit_fs_mono _ _ _ hm⟩
      · cases hfo : fetch (pyStrCell r.audio_url) with
        | ok =>
          obtain ⟨hd, hm⟩ := (processRow_spec fetch today fs r).2.2.1 (Or.inr hfo)
          exact ⟨hd, downloadAndAudit_fs_mono _ _ _ hm⟩
        | errBefore =>
          exact absurd ((processRow_spec fetch today fs r).2.2.2.1 hmem hfo).1 hne
        | errDuring =>
          exact absurd ((processRow_spec fetch today fs r).2.2.2.2 hmem hfo).1 hne
    · simp only [downloadAndAudit]
      rw [if_neg ha]
      exact List.Forall₂.cons (fun hne => absurd rfl hne) (ih fs)

/-! # Step lemmas for the author pagination loop -/

lemma extractAuthorLoop_err {oracle : String → Option String}
    {site : String → FetchResult} {fuel : Nat} {url : String}
    (h : site url = .err) :
    extractAuthorLoop oracle site (fuel + 1) url = .ok ([], 1) := by
  rw [extractAuthorLoop, h]

lemma extractAuthorLoop_empty {oracle : String → Option String}
    {site : String → FetchResult} {fuel : Nat} {url : String}
    {next : Option String} (h : site url = .ok [] next) :
    extractAuthorLoop oracle site (fuel + 1) url = .ok ([], 1) := by
  rw [extractAuthorLoop, h]
  rfl

lemma extractAuthorLoop_cons {oracle : String → Option String}
    {site : String → FetchResult} {fuel : Nat} {url nextUrl : String}
    {tracks : List TrackTag} {rows rest : List Row} {n : Nat}
    (hsite : site url = .ok tracks (some nextUrl))
    (hne : tracks.isEmpty = false)
    (hmap : tracks.mapM (parseTrackData oracle) = .ok rows)
    (hrec : extractAuthorLoop oracle site fuel nextUrl = .ok (rest, n)) :
    extractAuthorLoop oracle site (fuel + 1) url = .ok (rows ++ rest, n + 1) := by
  rw [extractAuthorLoop, hsite]
  dsimp only
  rw [hne, if_neg Bool.false_ne_true, hmap]
  dsimp only
  rw [hrec]

/-! # Lemmas about report merging and deduplication -/

lemma dropDup_sublist :
    ∀ (seen : List (Option String)) (l : List Row),
      (dropDuplicatesByDataId seen l).Sublist l := by
  intro seen l
  induction l generalizing seen with
  | nil => exact List.Sublist.refl _
  | cons a as ih =>
    simp only [dropDuplicatesByDataId]
    by_cases h : a.data_id ∈ seen
    · rw [if_pos h]
      exact (ih seen).cons a
    · rw [if_neg h]
      exact (ih (a.data_id :: seen)).cons₂ a

lemma dropDup_not_seen :
    ∀ (seen : List (Option String)) (l : List Row) (r : Row),
      r ∈ dropDuplicatesByDataId seen l → r.data_id ∉ seen := by
  intro seen l
  induction l generalizing seen with
  | nil => simp [dropDuplicatesByDataId]
  | cons a as ih =>
    simp only [dropDuplicatesByDataId]
    by_cases h : a.data_id ∈ seen
    · rw [if_pos h]
      exact ih seen
    · rw [if_neg h]
      intro r hm
      rcases List.mem_cons.mp hm with rfl | hm'
      · exact h
      · exact fun hc =>
          ih (a.data_id :: seen) r hm' (List.mem_cons_of_mem _ hc)

lemma dropDup_keys_nodup :
    ∀ (seen : List (Option String)) (l : List Row),
      ((dropDuplicatesByDataId seen l).map Row.data_id).Nodup := by
  intro seen l
  induction l generalizing seen with
  | nil => simp [dropDuplicatesByDataId]
  | cons a as ih =>
    simp only [dropDuplicatesByDataId]
    by_cases h : a.data_id ∈ seen
    · rw [if_pos h]
      exact ih seen
    · rw [if_neg h]
      simp only [List.map_cons, List.nodup_cons]
      refine ⟨?_, ih _⟩
      intro hc
      obtain ⟨r, hr, he⟩ := List.mem_map.mp hc
      exact dropDup_not_seen _ _ _ hr (he ▸ List.mem_cons_self _ _)

lemma dropDup_find? :
    ∀ (seen : List (Option String)) (l : List Row) (k : Option String),
      k ∉ seen →
      (dropDuplicatesByDataId seen l).find? (fun r => r.data_id == k) =
        l.find? (fun r => r.data_id == k) := by
  intro seen l
  induction l generalizing seen with
  | nil => intro k _; rfl
  | cons a as ih =>
    intro k hk
    simp only [dropDuplicatesByDataId]
    by_cases h : a.data_id ∈ seen
    · rw [if_pos h]
      have hne : ¬((a.data_id == k) = true) := by
        intro hc
        exact hk (beq_iff_eq.mp hc ▸ h)
      simp only [List.find?_cons_of_neg (p := fun r => r.data_id == k) (a := a) _ hne]
      exact ih seen k hk
    · rw [if_neg h]
      by_cases he : (a.data_id == k) = true
      · simp only [List.find?_cons_of_pos (p := fun r => r.data_id == k) (a := a) _ he]
      · simp only [List.find?_cons_of_neg (p := fun r => r.data_id == k) (a := a) _ he]
        apply ih
        intro hc
        rcases List.mem_cons.mp hc with hEq | hc'
        · exact he (by rw [hEq]; exact beq_self_eq_true _)
        · exact hk hc'

lemma countP_key_le_one {l : List Row}
    (h : (l.map Row.data_id).Nodup) (k : Option String) :
    l.countP (fun r => r.data_id == k) ≤ 1 := by
  induction l with
  | nil => simp
  | cons a as ih =>
    simp only [List.map_cons, List.nodup_cons] at h
    obtain ⟨hna, hnd⟩ := h
    by_cases hp : (a.data_id == k) = true
    · rw [List.countP_cons_of_pos (fun r => r.data_id == k) as hp]
      have hz : as.countP (fun r => r.data_id == k) = 0 := by
        rw [List.countP_eq_zero]
        intro r hr hc
        have h1 : r.data_id = k := beq_iff_eq.mp hc
        have h2 : a.data_id = k := beq_iff_eq.mp hp
        exact hna (List.mem_map.mpr ⟨r, hr, by rw [h1, h2]⟩)
      omega
    · rw [List.countP_cons_of_neg (fun r => r.data_id == k) as hp]
      exact ih hnd

/-- The successful case of `merge_reports` always returns the deduplicated
concatenation of the readable inputs, in order. -/
lemma mergeReports_eq_some {files : List (Option (List Row))} {out : List Row}
    (hm : mergeReports files = some out) :
    out = dropDuplicatesByDataId [] (files.filterMap id).flatten := by
  simp only [mergeReports] at hm
  by_cases h1 : files.isEmpty = true
  · rw [if_pos h1] at hm
    exact Option.noConfusion hm
  · rw [if_neg h1] at hm
    by_cases h2 : (files.filterMap id).isEmpty = true
    · rw [if_pos h2] at hm
      exact Option.noConfusion hm
    · rw [if_neg h2] at hm
      injection hm with h
      exact h.symm

/-! # Claim theorems -/

/-- C1: the Track Parser is claimed to return exactly one record without
raising for every fragment, with missing sub-elements degrading to defaults —
including a `gravacao`/`lancamento` property label with no following sibling.
The code violates this: on such a fragment `find_next_sibling("div")` returns
`None` and the subsequent `.text` raises an uncaught `AttributeError`
(scraper.py line 115), contradicting the method's own docstring ("If any
field is missing in the HTML, a default value is used").  This theorem
evaluates the embedded parser at the failing input. -/
theorem c1_parser_raises_on_label_without_sibling :
    parseTrackData oracleNone gravacaoNoSiblingTag = .error .attributeError := by
  rfl

/-- C2 (counterexample): the audit CSV written by `download_from_csv` is NOT
reindexed to the configured column order — its columns are the input file's
columns (plus any missing audit columns appended at the end), so an input
with `titulo` and `data_id` swapped is persisted in that swapped order. -/
theorem c2_download_from_csv_order_counterexample :
    downloadFromCsvColumns editedCsvColumns ≠ OUTPUT_COLUMNS := by
  decide

/-- C2 (amended): the playlist metadata CSV, the author metadata CSV and the
complete reports of `download_from_playlist`/`download_from_author` are all
reindexed to exactly `OUTPUT_COLUMNS`, even though the insertion order of the
parsed fields (with or without the audit columns) differs from it; the audit
CSV of `download_from_csv`, by contrast, keeps the input file's column order
and only appends the audit columns that are missing. -/
theorem c2_report_column_order :
    metadataReportColumns = OUTPUT_COLUMNS ∧
    completeReportColumns = OUTPUT_COLUMNS ∧
    addAuditColumns parsedDictColumns ≠ OUTPUT_COLUMNS ∧
    (∀ cols : List String,
      downloadFromCsvColumns cols =
        cols ++ (["pasta", "nome_arquivo", "data_download"].filter
          (fun c => !(cols.contains c)))) ∧
    downloadFromCsvColumns editedCsvColumns = editedCsvColumns := by
  refine ⟨rfl, rfl, by decide, fun cols => rfl, by decide⟩

/-- C3: the destination folder is claimed to be the sentinel
"Autor Desconhecido" whenever the author field is missing (NaN) or empty.
The code applies `str(...)` to the cell BEFORE its `pd.notna` test
(scraper.py lines 194-195), so a NaN cell becomes the non-empty string "nan"
and the sentinel branch is unreachable for it: the record is filed under a
folder literally named "nan".  The empty-string and ordinary cases do behave
as claimed. -/
theorem c3_nan_author_folder_bug :
    nomePasta none = "nan" ∧
    nomePasta (some "") = "Autor Desconhecido" ∧
    nomePasta (some "Wilson Batista / Alvaiade") = "Wilson Batista" ∧
    (processRow (fun _ => FetchOutcome.ok) "14/10/2025" []
      nanAuthorRow).1.pasta = some "nan" := by
  refine ⟨rfl, rfl, by decide, by decide⟩

/-- C6: the download filename is `slug(title) ++ "_" ++ id ++ ".mp3"`, where
the slug contains only lower-case letters, digits and hyphens, never two
adjacent hyphens and no leading or trailing hyphen (runs of
whitespace/hyphens collapse to single hyphens which are then stripped at the
boundaries); title "É Mato" with id "62582" yields "e-mato_62582.mp3". -/
theorem c6_filename_and_slug :
    (∀ titulo data_id : String,
      nomeArquivoFinal titulo data_id =
        slugTitulo titulo ++ "_" ++ data_id ++ ".mp3") ∧
    (∀ (titulo : String) (c : Char),
      c ∈ (slugTitulo titulo).data → isSlugChar c = true) ∧
    (∀ titulo : String,
      List.Chain' (fun a b : Char => ¬(a = '-' ∧ b = '-'))
        (slugTitulo titulo).data) ∧
    (∀ titulo : String,
      (slugTitulo titulo).data.head? ≠ some '-' ∧
        (slugTitulo titulo).data.getLast? ≠ some '-') ∧
    nomeArquivoFinal "É Mato" "62582" = "e-mato_62582.mp3" := by
  refine ⟨fun _ _ => rfl, fun t c hc => mem_slugTitulo hc, fun t => ?_,
    fun t => ⟨?_, ?_⟩, by decide⟩
  · exact chain'_stripHyphens (chain'_collapseAux false _)
  · intro hh
    exact head?_stripHyphens hh rfl
  · intro hh
    exact getLast?_stripHyphens hh rfl

/-- Witness for C6: the second conjunct applied to the concrete title
"É Mato" and the character 'e' of its slug. -/
theorem c6_filename_and_slug_witness :
    isSlugChar 'e' = true ∧ nomeArquivoFinal "É Mato" "62582" = "e-mato_62582.mp3" :=
  ⟨c6_filename_and_slug.2.1 "É Mato" 'e' (by decide), c6_filename_and_slug.2.2.2.2⟩

/-- C4 (counterexample): "download-date is set iff the target file exists on
disk at stage end" fails when two records resolve to the same target file.
Here both records name the same author/title/id; the first record's fetch
fails (no date set), the second's succeeds and creates the file — so at stage
end the first record's target file exists while its download-date is unset. -/
theorem c4_stage_end_iff_counterexample :
    hasAudio dupPathRow1 = true ∧
    (downloadAndAudit dupFetch "14/10/2025" [] [dupPathRow1, dupPathRow2]).1.map
      Row.data_download = [none, some "14/10/2025"] ∧
    targetPath dupPathRow1 ∈
      (downloadAndAudit dupFetch "14/10/2025" [] [dupPathRow1, dupPathRow2]).2 := by
  refine ⟨rfl, by decide, by decide⟩

/-- C4 (amended): for a record entering the download stage with a non-empty
audio URL and no prior download-date, the download-date is set (to the run
date) iff its target file already existed or its streamed download
completed — and then the file is on disk right after the record is
processed.  On a network error the folder and filename are still set and the
download-date stays unset; an error raised before the target file is opened
leaves the file system unchanged, while a `RequestException` during
streaming leaves the (partial) target file on disk.  Moreover, over the
whole stage, any record whose download-date the stage changed got today's
date and its target file exists at stage end (the converse direction of the
claim's "iff at stage end" holds only per record, not at stage end, as
records sharing a target file show). -/
theorem c4_download_date_success :
    (∀ (fetch : String → FetchOutcome) (today : String) (fs : List String)
       (r : Row),
      hasAudio r = true → r.data_download = none →
        (processRow fetch today fs r).1.pasta = some (nomePasta r.autor) ∧
        (processRow fetch today fs r).1.nome_arquivo =
          some (nomeArquivoFinal (pyStrCell r.titulo) (pyStrCell r.data_id)) ∧
        ((processRow fetch today fs r).1.data_download = some today ↔
          targetPath r ∈ fs ∨ fetch (pyStrCell r.audio_url) = .ok) ∧
        ((processRow fetch today fs r).1.data_download = some today →
          targetPath r ∈ (processRow fetch today fs r).2) ∧
        (targetPath r ∉ fs → fetch (pyStrCell r.audio_url) = .errBefore →
          (processRow fetch today fs r).1.data_download = none ∧
            (processRow fetch today fs r).2 = fs) ∧
        (targetPath r ∉ fs → fetch (pyStrCell r.audio_url) = .errDuring →
          (processRow fetch today fs r).1.data_download = none ∧
            (processRow fetch today fs r).2 = targetPath r :: fs)) ∧
    (∀ (fetch : String → FetchOutcome) (today : String) (fs : List String)
       (rows : List Row),
      List.Forall₂
        (fun r r' => r'.data_download ≠ r.data_download →
          r'.data_download = some today ∧
            targetPath r ∈ (downloadAndAudit fetch today fs rows).2)
        rows (downloadAndAudit fetch today fs rows).1) := by
  refine ⟨?_, fun fetch today fs rows => downloadAndAudit_sets_today fetch today rows fs⟩
  intro fetch today fs r _ hdd
  obtain ⟨hp, hn, hs, hb, hd⟩ := processRow_spec fetch today fs r
  refine ⟨hp, hn, ⟨?_, fun h => (hs h).1⟩, ?_, ?_, ?_⟩
  · intro hsome
    by_contra hc
    push_neg at hc
    cases hfo : fetch (pyStrCell r.audio_url) with
    | ok => exact hc.2 hfo
    | errBefore =>
      have := (hb hc.1 hfo).1
      rw [this, hdd] at hsome
      exact Option.noConfusion hsome
    | errDuring =>
      have := (hd hc.1 hfo).1
      rw [this, hdd] at hsome
      exact Option.noConfusion hsome
  · intro hsome
    by_cases hmem : targetPath r ∈ fs
    · exact (hs (Or.inl hmem)).2
    · cases hfo : fetch (pyStrCell r.audio_url) with
      | ok => exact (hs (Or.inr hfo)).2
      | errBefore =>
        have := (hb hmem hfo).1
        rw [this, hdd] at hsome
        exact Option.noConfusion hsome
      | errDuring =>
        have := (hd hmem hfo).1
        rw [this, hdd] at hsome
        exact Option.noConfusion hsome
  · intro hmem hfo
    exact hdd ▸ hb hmem hfo
  · intro hmem hfo
    exact hdd ▸ hd hmem hfo

/-- Witness for C4: the per-record part applied to the concrete record
`dupPathRow1` with an empty disk and a network that fails before the file
is opened. -/
theorem c4_download_date_success_witness :
    (processRow (fun _ => FetchOutcome.errBefore) "14/10/2025" []
        dupPathRow1).1.pasta = some (nomePasta dupPathRow1.autor) ∧
    (processRow (fun _ => FetchOutcome.errBefore) "14/10/2025" []
        dupPathRow1).1.nome_arquivo =
      some (nomeArquivoFinal (pyStrCell dupPathRow1.titulo)
        (pyStrCell dupPathRow1.data_id)) ∧
    ((processRow (fun _ => FetchOutcome.errBefore) "14/10/2025" []
        dupPathRow1).1.data_download = some "14/10/2025" ↔
      targetPath dupPathRow1 ∈ ([] : List String) ∨
        (fun _ : String => FetchOutcome.errBefore)
          (pyStrCell dupPathRow1.audio_url) = .ok) ∧
    ((processRow (fun _ => FetchOutcome.errBefore) "14/10/2025" []
        dupPathRow1).1.data_download = some "14/10/2025" →
      targetPath dupPathRow1 ∈
        (processRow (fun _ => FetchOutcome.errBefore) "14/10/2025" []
          dupPathRow1).2) ∧
    (targetPath dupPathRow1 ∉ ([] : List String) →
      (fun _ : String => FetchOutcome.errBefore)
          (pyStrCell dupPathRow1.audio_url) = .errBefore →
      (processRow (fun _ => FetchOutcome.errBefore) "14/10/2025" []
          dupPathRow1).1.data_download = none ∧
        (processRow (fun _ => FetchOutcome.errBefore) "14/10/2025" []
          dupPathRow1).2 = ([] : List String)) ∧
    (targetPath dupPathRow1 ∉ ([] : List String) →
      (fun _ : String => FetchOutcome.errBefore)
          (pyStrCell dupPathRow1.audio_url) = .errDuring →
      (processRow (fun _ => FetchOutcome.errBefore) "14/10/2025" []
          dupPathRow1).1.data_download = none ∧
        (processRow (fun _ => FetchOutcome.errBefore) "14/10/2025" []
          dupPathRow1).2 = targetPath dupPathRow1 :: ([] : List String)) :=
  c4_download_date_success.1 (fun _ => FetchOutcome.errBefore) "14/10/2025" []
    dupPathRow1 (by decide) rfl

/-- C5: a record whose `audio_url` is empty or missing fails the stage's
filter and is passed through completely unchanged — no audit field is set
and no other field is modified. -/
theorem c5_empty_audio_untouched :
    ∀ (fetch : String → FetchOutcome) (today : String) (fs : List String)
      (rows : List Row) (i : Nat) (hi : i < rows.length),
      hasAudio (rows.get ⟨i, hi⟩) = false →
      (downloadAndAudit fetch today fs rows).1.getD i default =
        rows.get ⟨i, hi⟩ := by
  intro fetch today fs rows
  induction rows generalizing fs with
  | nil => intro i hi; exact absurd hi (Nat.not_lt_zero i)
  | cons r rs ih =>
    intro i hi h
    by_cases ha : hasAudio r = true
    · cases i with
      | zero =>
        simp only [List.get] at h
        rw [ha] at h
        exact absurd h (by simp)
      | succ j =>
        have hj : j < rs.length := Nat.lt_of_succ_lt_succ hi
        have hrec := ih (processRow fetch today fs r).2 j hj (by simpa using h)
        simp only [downloadAndAudit, ha, if_true]
        simpa using hrec
    · cases i with
      | zero =>
        simp only [downloadAndAudit]
        rw [if_neg ha]
        simp
      | succ j =>
        have hj : j < rs.length := Nat.lt_of_succ_lt_succ hi
        have hrec := ih fs j hj (by simpa using h)
        simp only [downloadAndAudit]
        rw [if_neg ha]
        simpa using hrec

/-- Witness for C5: the no-audio record `noAudioRow` passes through a
one-record run unchanged. -/
theorem c5_empty_audio_untouched_witness :
    (downloadAndAudit (fun _ => FetchOutcome.ok) "14/10/2025" []
      [noAudioRow]).1.getD 0 default = [noAudioRow].get ⟨0, by decide⟩ :=
  c5_empty_audio_untouched (fun _ => FetchOutcome.ok) "14/10/2025" []
    [noAudioRow] 0 (by decide) (by decide)

/-- C7: the Author Extractor follows the "Next" links in order, stops at the
first page with zero track fragments (a natural end, not an error), and
returns the page-ordered concatenation of the parsed tracks; with three
pages whose third has zero fragments it returns exactly the tracks of pages
one and two and performs exactly three page requests. -/
theorem c7_author_pagination :
    ∀ (oracle : String → Option String) (site : String → FetchResult)
      (fuel : Nat) (u0 u1 u2 : String) (p1 p2 : List TrackTag)
      (r1 r2 : List Row) (nx : Option String),
      site u0 = .ok p1 (some u1) →
      site u1 = .ok p2 (some u2) →
      site u2 = .ok [] nx →
      p1 ≠ [] → p2 ≠ [] →
      p1.mapM (parseTrackData oracle) = .ok r1 →
      p2.mapM (parseTrackData oracle) = .ok r2 →
      3 ≤ fuel →
      extractAuthorData oracle site fuel u0 = .ok (r1 ++ r2, 3) := by
  intro oracle site fuel u0 u1 u2 p1 p2 r1 r2 nx h0 h1 h2 hp1 hp2 hm1 hm2 hfuel
  obtain ⟨k, rfl⟩ := Nat.exists_eq_add_of_le' hfuel
  have hp1e : p1.isEmpty = false := by
    cases p1
    · exact absurd rfl hp1
    · rfl
  have hp2e : p2.isEmpty = false := by
    cases p2
    · exact absurd rfl hp2
    · rfl
  have e2 : extractAuthorLoop oracle site (k + 1) u2 = .ok ([], 1) :=
    extractAuthorLoop_empty h2
  have e1 := extractAuthorLoop_cons h1 hp2e hm2 e2
  have e0 := extractAuthorLoop_cons h0 hp1e hm1 e1
  have hk : k + 3 = k + 1 + 1 + 1 := by omega
  rw [extractAuthorData, hk, e0]
  simp

/-- Witness for C7: the concrete three-page site, with every hypothesis
discharged at that input. -/
theorem c7_author_pagination_witness :
    extractAuthorData oracleNone threePageSite 10 "p1" =
      .ok ([rowAlpha, rowBeta] ++ [rowGama], 3) :=
  c7_author_pagination oracleNone threePageSite 10 "p1" "p2" "p3"
    [pageTagA, pageTagB] [pageTagC] [rowAlpha, rowBeta] [rowGama] none
    rfl rfl rfl (by decide) (by decide) rfl rfl (by decide)

/-- C8: a fatal fetch failure on the playlist tracklist request makes the
Playlist Extractor return `[]`, and a fetch failure on a page of an author
extraction makes the Author Extractor stop and return the tracks aggregated
from the earlier pages; both failure paths return a value — the caught
`RequestException` never crosses the component boundary. -/
theorem c8_fetch_failure_partial_results :
    (∀ oracle : String → Option String,
      extractPlaylistData oracle .err = .ok []) ∧
    (∀ (oracle : String → Option String) (site : String → FetchResult)
       (fuel : Nat) (u0 u1 : String) (p1 : List TrackTag) (r1 : List Row),
      site u0 = .ok p1 (some u1) →
      site u1 = .err →
      p1 ≠ [] →
      p1.mapM (parseTrackData oracle) = .ok r1 →
      2 ≤ fuel →
      extractAuthorData oracle site fuel u0 = .ok (r1, 2)) := by
  refine ⟨fun oracle => rfl, ?_⟩
  intro oracle site fuel u0 u1 p1 r1 h0 h1 hp1 hm1 hfuel
  obtain ⟨k, rfl⟩ := Nat.exists_eq_add_of_le' hfuel
  have hp1e : p1.isEmpty = false := by
    cases p1
    · exact absurd rfl hp1
    · rfl
  have e1 : extractAuthorLoop oracle site (k + 1) u1 = .ok ([], 1) :=
    extractAuthorLoop_err h1
  have e0 := extractAuthorLoop_cons h0 hp1e hm1 e1
  have hk : k + 2 = k + 1 + 1 := by omega
  rw [extractAuthorData, hk, e0]
  simp

/-- Witness for C8: the author part applied to the concrete site whose
second page request fails. -/
theorem c8_fetch_failure_partial_results_witness :
    extractAuthorData oracleNone failPage2Site 5 "p1" =
      .ok ([rowAlpha, rowBeta], 2) :=
  c8_fetch_failure_partial_results.2 oracleNone failPage2Site 5 "p1" "p2"
    [pageTagA, pageTagB] [rowAlpha, rowBeta]
    rfl rfl (by decide) rfl (by decide)

/-- C9: `merge_reports` returns the empty-string failure signal exactly when
the input list is empty or no file was readable; otherwise it writes the
concatenation of the readable files in input order, deduplicated on
`data_id` keeping the first occurrence: the output is a subsequence of the
concatenation, its ids are pairwise distinct, and for every id value the
first matching row of the concatenation is exactly the first matching row of
the output.  Merging two reports sharing one id, each with one extra unique
record, yields exactly the three first-seen rows. -/
theorem c9_merge_reports_dedup :
    mergeReports [] = none ∧
    (∀ files : List (Option (List Row)),
      (∀ f ∈ files, f = none) → mergeReports files = none) ∧
    (∀ (files : List (Option (List Row))) (out : List Row),
      mergeReports files = some out →
      out.Sublist (files.filterMap id).flatten ∧
      (out.map Row.data_id).Nodup ∧
      ∀ k : Option String,
        out.find? (fun r => r.data_id == k) =
          (files.filterMap id).flatten.find? (fun r => r.data_id == k)) ∧
    mergeReports [some [mergeRowA, sharedRow1], some [sharedRow2, mergeRowB]] =
      some [mergeRowA, sharedRow1, mergeRowB] := by
  refine ⟨rfl, ?_, ?_, by decide⟩
  · intro files hall
    simp only [mergeReports]
    cases files with
    | nil => rfl
    | cons f fs =>
      rw [if_neg (by simp)]
      rw [show List.filterMap id (f :: fs) = [] from
        List.filterMap_eq_nil_iff.mpr hall]
      rfl
  · intro files out hm
    have hout := mergeReports_eq_some hm
    subst hout
    exact ⟨dropDup_sublist _ _, dropDup_keys_nodup _ _,
      fun k => dropDup_find? _ _ k (List.not_mem_nil k)⟩

/-- Witness for C9: the all-unreadable conjunct applied to a one-element
file list. -/
theorem c9_merge_reports_dedup_witness :
    mergeReports [(none : Option (List Row))] = none :=
  c9_merge_reports_dedup.2.1 [none] (by simp)

/-- C10: pandas `drop_duplicates(subset=["data_id"])` hashes NaN keys as
equal, so any two rows with a missing id are duplicates of each other: every
merged output contains at most one row whose `data_id` is missing, and
merging two reports each holding one distinct no-id row keeps only the
first. -/
theorem c10_missing_ids_collapse :
    (∀ (files : List (Option (List Row))) (out : List Row),
      mergeReports files = some out →
      out.countP (fun r => r.data_id == (none : Option String)) ≤ 1) ∧
    mergeReports [some [nanIdRow1], some [nanIdRow2]] = some [nanIdRow1] ∧
    nanIdRow1 ≠ nanIdRow2 := by
  refine ⟨?_, by decide, by decide⟩
  intro files out hm
  have hout := mergeReports_eq_some hm
  subst hout
  exact countP_key_le_one (dropDup_keys_nodup _ _) none

/-- Witness for C10: the bound applied to the concrete two-report merge with
two distinct no-id rows. -/
theorem c10_missing_ids_collapse_witness :
    [nanIdRow1].countP (fun r => r.data_id == (none : Option String)) ≤ 1 :=
  c10_missing_ids_collapse.1 [some [nanIdRow1], some [nanIdRow2]] [nanIdRow1]
    (by decide)

end DbScraper
